import Mathlib

/-!
Verification development for the document-analysis frontend client.

Shallow embedding of the two behavioural cores of the repository:

1. the task polling client: `pollTaskUntilComplete` from
   `src/frontend/components/advanced_api.ts` (bounded loop, `maxAttempts`
   default 150, throws `'处理超时'` on budget exhaustion), and the second,
   unbounded `pollTaskUntilComplete` defined locally inside the
   ChatAssistant component (`while (true)` loop, no attempt cap);

2. the heuristic OCR-text extractor `parseOCRData` from
   `src/frontend/components/DataVisualizationUpdated.tsx`
   (section tagging, markdown-table rows, and the `label: number unit`
   regex fallback).

JavaScript string/number primitives used by the source (`split`, `trim`,
`includes`, `parseFloat`, `String.replace` with character-class regexes,
and the sales-line regex search) are modelled by executable Lean functions
over `List Char`; JS numbers are modelled by `ℚ` (every numeric literal the
claims touch is a short decimal, where IEEE doubles are exact).
A status source is a function `Nat → TaskStatus` giving the snapshot
returned by the n-th sequential `getStatus` call; polling delays are not
modelled (they do not affect the observable snapshot/outcome sequence).
-/

namespace DocAnalysis

set_option maxRecDepth 10000

/-! ## Task lifecycle model (advanced_api.ts) -/

/-- TaskState mirrors the `status` union of the `TaskStatus` interface in
`advanced_api.ts`: `'pending' | 'ocr_processing' | 'analyzing' |
'visualizing' | 'completed' | 'error'`. -/
inductive TaskState where
  | pending
  | ocr_processing
  | analyzing
  | visualizing
  | completed
  | error
deriving DecidableEq

/-- TaskStatus mirrors the `TaskStatus` interface of `advanced_api.ts`
(fields `task_id`, `status`, `current_step`, `progress`, `message`,
`created_at`, `updated_at`, `has_results`). -/
structure TaskStatus where
  task_id : String
  status : TaskState
  current_step : String
  progress : Int
  message : String
  created_at : String
  updated_at : String
  has_results : Bool
deriving DecidableEq

/-- PollOutcome describes how `pollTaskUntilComplete` (advanced_api.ts)
ends: `success k` models `return await getProcessingResults(taskId)` after
the snapshot of poll `k` reported `'completed'`; `jobError msg` models
`throw new Error(status.message)`; `timeout` models
`throw new Error('处理超时')` after the attempt budget is spent. -/
inductive PollOutcome where
  | success (k : Nat)
  | jobError (msg : String)
  | timeout
deriving DecidableEq

/-- pollAux is the loop body of `pollTaskUntilComplete` in
`advanced_api.ts`: while `attempts < maxAttempts` it fetches the next
snapshot, invokes `onProgress` with it, returns on `'completed'`, throws on
`'error'`, and otherwise waits and retries.  `idx` is the index of the
next poll, the `Nat` argument is the remaining attempt budget
(`maxAttempts - attempts`).  The first component collects the snapshots
passed to `onProgress`, in order. -/
def pollAux (source : Nat → TaskStatus) (idx : Nat) :
    Nat → List TaskStatus × PollOutcome
  | 0 => ([], PollOutcome.timeout)
  | remaining + 1 =>
    let st := source idx
    if st.status = TaskState.completed then ([st], PollOutcome.success idx)
    else if st.status = TaskState.error then ([st], PollOutcome.jobError st.message)
    else
      let r := pollAux source (idx + 1) remaining
      (st :: r.1, r.2)

/-- pollTaskUntilComplete models the exported function of
`advanced_api.ts`; the source's `maxAttempts` parameter defaults to 150
and `pollInterval` (2000 ms) only affects wall-clock time, not the
snapshot/outcome sequence. -/
def pollTaskUntilComplete (source : Nat → TaskStatus) (maxAttempts : Nat) :
    List TaskStatus × PollOutcome :=
  pollAux source 0 maxAttempts

/-- ChatPollOutcome describes how the ChatAssistant-local
`pollTaskUntilComplete` ends: it returns the completed status object
itself, or throws `new Error(status.message)` on `'error'`. -/
inductive ChatPollOutcome where
  | success (st : TaskStatus)
  | jobError (msg : String)
deriving DecidableEq

/-- pollChatAux is the loop body of the second `pollTaskUntilComplete`,
defined locally in the ChatAssistant component: `while (true)` — fetch a
snapshot, call `onUpdate`, return it on `'completed'`, throw on
`'error'`, otherwise wait 2 s and loop.  The source loop has no attempt
cap, so the embedding counts polls with a fuel argument: `none` means the
loop is still running after consuming that many polls. -/
def pollChatAux (source : Nat → TaskStatus) (idx : Nat) :
    Nat → Option (List TaskStatus × ChatPollOutcome)
  | 0 => none
  | fuel + 1 =>
    let st := source idx
    if st.status = TaskState.completed then
      some ([st], ChatPollOutcome.success st)
    else if st.status = TaskState.error then
      some ([st], ChatPollOutcome.jobError st.message)
    else
      match pollChatAux source (idx + 1) fuel with
      | some r => some (st :: r.1, r.2)
      | none => none

/-- pollTaskUntilCompleteChat runs the ChatAssistant's unbounded polling
loop for at most `fuel` polls; `none` means it has not terminated within
that many polls. -/
def pollTaskUntilCompleteChat (source : Nat → TaskStatus) (fuel : Nat) :
    Option (List TaskStatus × ChatPollOutcome) :=
  pollChatAux source 0 fuel

/-! ## JavaScript string primitives used by parseOCRData -/

/-- jsIsWhitespace models the characters `\s` matches (and `trim` strips)
for the ASCII range; the inputs handled by the claims contain no exotic
Unicode whitespace. -/
def jsIsWhitespace (c : Char) : Bool :=
  c = ' ' || c = '\t' || c = '\n' || c = '\r' || c = '\x0b' || c = '\x0c'

/-- jsTrim models `String.prototype.trim`. -/
def jsTrim (s : String) : String :=
  ⟨((s.data.dropWhile jsIsWhitespace).reverse.dropWhile jsIsWhitespace).reverse⟩

/-- jsSplitAux accumulates the current piece (reversed) while scanning. -/
def jsSplitAux (sep : Char) : List Char → List Char → List String
  | [], acc => [⟨acc.reverse⟩]
  | c :: rest, acc =>
    if c = sep then ⟨acc.reverse⟩ :: jsSplitAux sep rest []
    else jsSplitAux sep rest (c :: acc)

/-- jsSplit models `String.prototype.split` with a single-character
separator (the source splits on `'\n'` and `'|'`): empty pieces are kept,
and the empty string splits to `[""]`. -/
def jsSplit (sep : Char) (s : String) : List String :=
  jsSplitAux sep s.data []

/-- startsWithChars tests whether the first list is a leading segment of
the second. -/
def startsWithChars : List Char → List Char → Bool
  | [], _ => true
  | _ :: _, [] => false
  | p :: ps, c :: cs => p = c && startsWithChars ps cs

/-- hasSubChars tests whether the pattern occurs contiguously anywhere in
the text. -/
def hasSubChars (pat : List Char) : List Char → Bool
  | [] => startsWithChars pat []
  | c :: cs => startsWithChars pat (c :: cs) || hasSubChars pat cs

/-- strIncludes models `String.prototype.includes`. -/
def strIncludes (s pat : String) : Bool :=
  hasSubChars pat.data s.data

/-- strContainsChar models `includes` with a one-character argument (the
source's `trimmedLine.includes('|')`). -/
def strContainsChar (s : String) (c : Char) : Bool :=
  s.data.contains c

/-! ## JavaScript numeric parsing -/

/-- digitsToNat reads a list of decimal digit characters as a natural
number. -/
def digitsToNat (ds : List Char) : Nat :=
  ds.foldl (fun acc c => 10 * acc + (c.toNat - '0'.toNat)) 0

/-- jsParseFloat models `parseFloat` on the strings this code feeds it:
every call site first strips the argument down to the alphabet
`0-9` and `.` (`replace(/[^\d.]/g, '')`) or to `0-9` only
(`replace(/[,.]/g, '')` applied to a `[\d,.]+` regex capture), so sign,
whitespace and exponent forms cannot occur.  `parseFloat` reads the
longest prefix `digits [ '.' digits ]`; if no digit is consumed the
result is `NaN`, modelled as `none`. -/
def jsParseFloat (s : String) : Option ℚ :=
  let ip := s.data.takeWhile Char.isDigit
  match s.data.dropWhile Char.isDigit with
  | '.' :: r2 =>
    let fp := r2.takeWhile Char.isDigit
    if ip.isEmpty && fp.isEmpty then none
    else some ((digitsToNat ip : ℚ) + (digitsToNat fp : ℚ) / (10 : ℚ) ^ fp.length)
  | _ => if ip.isEmpty then none else some ((digitsToNat ip : ℚ))

/-- keepDigitsDots models `x.replace(/[^\d.]/g, '')`: every character that
is not an ASCII digit and not `'.'` is removed. -/
def keepDigitsDots (s : String) : String :=
  ⟨s.data.filter (fun c => c.isDigit || c = '.')⟩

/-- stripCommasDots models `x.replace(/[,.]/g, '')`: every `','` and every
`'.'` is removed — including any decimal point. -/
def stripCommasDots (s : String) : String :=
  ⟨s.data.filter (fun c => !(c = ',' || c = '.'))⟩

/-! ## The sales-line regex

The source searches each trimmed line with
`/(\d+[月]?)[:：]\s*([\d,.]+)\s*(万元|元|万)/`.  Every quantified piece of
this pattern is followed by a piece whose first character cannot extend
it (a digit run cannot be extended past `月`/`:`/`：`, whitespace is not
in `[\d,.]`, and `万`/`元` are in neither class), so the backtracking
search is equivalent to the greedy left-to-right scan implemented here:
try a match at each start position, leftmost one wins. -/

/-- isNumClass models the character class `[\d,.]`. -/
def isNumClass (c : Char) : Bool :=
  c.isDigit || c = ',' || c = '.'

/-- tryMatchAt attempts the sales regex anchored at the head of the list,
returning the three capture groups. -/
def tryMatchAt (cs : List Char) : Option (String × String × String) :=
  let d1 := cs.takeWhile Char.isDigit
  if d1.isEmpty then none
  else
    let g := match cs.dropWhile Char.isDigit with
      | '月' :: rest => (d1 ++ ['月'], rest)
      | r1 => (d1, r1)
    match g.2 with
    | c :: r3 =>
      if c = ':' || c = '：' then
        let r4 := r3.dropWhile jsIsWhitespace
        let num1 := r4.takeWhile isNumClass
        if num1.isEmpty then none
        else
          let r6 := (r4.dropWhile isNumClass).dropWhile jsIsWhitespace
          match r6 with
          | '万' :: '元' :: _ => some (⟨g.1⟩, ⟨num1⟩, "万元")
          | '元' :: _ => some (⟨g.1⟩, ⟨num1⟩, "元")
          | '万' :: _ => some (⟨g.1⟩, ⟨num1⟩, "万")
          | _ => none
      else none
    | [] => none

/-- salesMatchAux tries the anchored match at every start position, left
to right. -/
def salesMatchAux : List Char → Option (String × String × String)
  | [] => none
  | c :: rest =>
    match tryMatchAt (c :: rest) with
    | some r => some r
    | none => salesMatchAux rest

/-- salesMatch models `trimmedLine.match(/(\d+[月]?)[:：]\s*([\d,.]+)\s*(万元|元|万)/)`,
returning the three capture groups of the leftmost match. -/
def salesMatch (s : String) : Option (String × String × String) :=
  salesMatchAux s.data

/-! ## parseOCRData (DataVisualizationUpdated.tsx) -/

/-- SalesPoint mirrors the objects pushed onto `sales`:
`{ month, value }`. -/
structure SalesPoint where
  month : String
  value : ℚ
deriving DecidableEq

/-- GrowthPoint mirrors the objects pushed onto `growth`:
`{ month, rate }`. -/
structure GrowthPoint where
  month : String
  rate : ℚ
deriving DecidableEq

/-- CategoryPoint mirrors the objects pushed onto `categories`:
`{ name, value }`. -/
structure CategoryPoint where
  name : String
  value : ℚ
deriving DecidableEq

/-- ParseState carries the mutable locals of `parseOCRData` across the
`lines.forEach` iteration: `currentSection` (a string, initially `''`)
and the three accumulator arrays. -/
structure ParseState where
  currentSection : String
  sales : List SalesPoint
  growth : List GrowthPoint
  categories : List CategoryPoint
deriving DecidableEq

/-- ParsedData mirrors the `{ sales, growth, categories }` object returned
by `parseOCRData`. -/
structure ParsedData where
  sales : List SalesPoint
  growth : List GrowthPoint
  categories : List CategoryPoint
deriving DecidableEq

/-- splitRow models
`trimmedLine.split('|').map(p => p.trim()).filter(p => p)`:
split on `'|'`, trim each piece, keep the truthy (non-empty) ones. -/
def splitRow (t : String) : List String :=
  ((jsSplit '|' t).map jsTrim).filter (fun p => !p.isEmpty)

/-- detectSection models the keyword chain at the top of the loop body:
`销售额`/`收入` select `'sales'`, else `增长率`/`增长` select `'growth'`,
else `产品`/`分类` select `'categories'`, else `currentSection` is kept. -/
def detectSection (t : String) (current : String) : String :=
  if strIncludes t ("销售额") || strIncludes t ("收入") then "sales"
  else if strIncludes t ("增长率") || strIncludes t ("增长") then "growth"
  else if strIncludes t ("产品") || strIncludes t ("分类") then "categories"
  else current

/-- parseTableRow models the table branch: with `parts = splitRow t` and
`parts.length >= 3`, the `'sales'` and `'growth'` sections require
`parts[0].includes('月')` and push one point per remaining field whose
cleaned text parses to a number; the `'categories'` section reads only
`parts[1]`.  The three guards are mutually exclusive in `sec`, so the
source's `if/else if` chain is rendered as nested conditionals. -/
def parseTableRow (sec : String) (t : String) (st : ParseState) : ParseState :=
  let parts := splitRow t
  if 3 ≤ parts.length then
    if sec = "sales" then
      if strIncludes (parts.headD ("")) ("月") then
        let month := parts.headD ("")
        let vals := (parts.drop 1).filterMap (fun p => jsParseFloat (keepDigitsDots p))
        { st with sales := st.sales ++ vals.map (fun v => ⟨month, v⟩) }
      else st
    else if sec = "growth" then
      if strIncludes (parts.headD ("")) ("月") then
        let month := parts.headD ("")
        let vals := (parts.drop 1).filterMap (fun p => jsParseFloat (keepDigitsDots p))
        { st with growth := st.growth ++ vals.map (fun v => ⟨month, v⟩) }
      else st
    else if sec = "categories" then
      if 2 ≤ parts.length then
        match jsParseFloat (keepDigitsDots (parts.getD 1 (""))) with
        | some v => { st with categories := st.categories ++ [⟨parts.headD (""), v⟩] }
        | none => st
      else st
    else st
  else st

/-- processLine is one iteration of `lines.forEach` in `parseOCRData`:
trim the line, update `currentSection` from the keyword chain, run the
table branch when the line contains `'|'` and the section string is
truthy, then independently run the `label: number unit` regex fallback,
which pushes onto `sales` (with `[,.]` stripped from the captured number)
whatever the current section is. -/
def processLine (st : ParseState) (line : String) : ParseState :=
  let t := jsTrim line
  let sec := detectSection t st.currentSection
  let st1 : ParseState := { st with currentSection := sec }
  let st2 :=
    if strContainsChar t '|' && !sec.isEmpty then parseTableRow sec t st1 else st1
  match salesMatch t with
  | some m =>
    match jsParseFloat (stripCommasDots m.2.1) with
    | some v => { st2 with sales := st2.sales ++ [⟨m.1, v⟩] }
    | none => st2
  | none => st2

/-- parseOCRData models the extractor of `DataVisualizationUpdated.tsx`:
split the markdown into lines, fold the per-line step starting from the
empty state, and return the three datasets.  The source wraps the body in
`try/catch`, but the body is total, so the catch branch (which would
return three empty arrays) is unreachable; the embedding is accordingly a
total function. -/
def parseOCRData (markdown : String) : ParsedData :=
  let lines := jsSplit '\n' markdown
  let st := lines.foldl processLine ⟨"", [], [], []⟩
  ⟨st.sales, st.growth, st.categories⟩



/-! ## Concrete snapshots and status sources used to instantiate claims -/

/-- analyzingSnap is a non-terminal snapshot as the server would report
during the analysis step. -/
def analyzingSnap : TaskStatus :=
  ⟨"task-1", TaskState.analyzing, "信息分析", 40, "分析中", "", "", false⟩

/-- constAnalyzingSource never reaches a terminal status. -/
def constAnalyzingSource : Nat → TaskStatus := fun _ => analyzingSnap

/-- c2snap0 reports progress 50. -/
def c2snap0 : TaskStatus :=
  ⟨"task-2", TaskState.analyzing, "步骤A", 50, "信息分析中", "", "", false⟩

/-- c2snap1 reports progress 30, lower than the previous snapshot. -/
def c2snap1 : TaskStatus :=
  ⟨"task-2", TaskState.analyzing, "步骤B", 30, "重新分析", "", "", false⟩

/-- c2snap2 is the terminal snapshot of the c2 run. -/
def c2snap2 : TaskStatus :=
  ⟨"task-2", TaskState.completed, "完成", 100, "处理完成", "", "", true⟩

/-- c2source polls 50, then 30, then completed. -/
def c2source : Nat → TaskStatus := fun n =>
  match n with
  | 0 => c2snap0
  | 1 => c2snap1
  | _ => c2snap2

/-- c3snap0 is the first non-terminal snapshot of the c3 run. -/
def c3snap0 : TaskStatus :=
  ⟨"task-3", TaskState.analyzing, "步骤A", 30, "分析中", "", "", false⟩

/-- c3snap1 is the second non-terminal snapshot of the c3 run. -/
def c3snap1 : TaskStatus :=
  ⟨"task-3", TaskState.analyzing, "步骤B", 60, "分析中", "", "", false⟩

/-- c3snap2 is the terminal completed snapshot of the c3 run. -/
def c3snap2 : TaskStatus :=
  ⟨"task-3", TaskState.completed, "完成", 100, "处理完成", "", "", true⟩

/-- c3stale is a stale out-of-order non-terminal snapshot that the server
would deliver after the completed one. -/
def c3stale : TaskStatus :=
  ⟨"task-3", TaskState.analyzing, "步骤B", 70, "分析中", "", "", false⟩

/-- c3source polls analyzing, analyzing, completed, then the stale
analyzing snapshot. -/
def c3source : Nat → TaskStatus := fun n =>
  match n with
  | 0 => c3snap0
  | 1 => c3snap1
  | 2 => c3snap2
  | _ => c3stale

/-- c4snap is a snapshot the c4 server reports twice in a row, identical
in status, progress and message. -/
def c4snap : TaskStatus :=
  ⟨"task-4", TaskState.analyzing, "步骤A", 40, "分析中", "", "", false⟩

/-- c4done is the terminal snapshot of the c4 run. -/
def c4done : TaskStatus :=
  ⟨"task-4", TaskState.completed, "完成", 100, "处理完成", "", "", true⟩

/-- c4source polls the identical snapshot twice, then completed. -/
def c4source : Nat → TaskStatus := fun n =>
  match n with
  | 0 => c4snap
  | 1 => c4snap
  | _ => c4done

/-- c10run0 is the first snapshot of both c10 runs. -/
def c10run0 : TaskStatus :=
  ⟨"task-10", TaskState.ocr_processing, "OCR", 20, "识别中", "", "", false⟩

/-- c10run1 is the second snapshot of the successful c10 run. -/
def c10run1 : TaskStatus :=
  ⟨"task-10", TaskState.analyzing, "分析", 60, "分析中", "", "", false⟩

/-- c10done is the terminal completed snapshot of the successful c10
run. -/
def c10done : TaskStatus :=
  ⟨"task-10", TaskState.completed, "完成", 100, "处理完成", "", "", true⟩

/-- c10fail is the terminal error snapshot of the failing c10 run. -/
def c10fail : TaskStatus :=
  ⟨"task-11", TaskState.error, "分析", 60, "任务处理失败", "", "", false⟩

/-- c10okSource reaches completed on the third poll. -/
def c10okSource : Nat → TaskStatus := fun n =>
  match n with
  | 0 => c10run0
  | 1 => c10run1
  | _ => c10done

/-- c10errSource reaches error on the second poll. -/
def c10errSource : Nat → TaskStatus := fun n =>
  match n with
  | 0 => c10run0
  | _ => c10fail

/-! ## General lemmas about the bounded polling loop -/

/-- pollAux_length_le: the loop makes at most `n` polls. -/
theorem pollAux_length_le (source : Nat → TaskStatus) :
    ∀ (n idx : Nat), (pollAux source idx n).1.length ≤ n := by
  intro n
  induction n with
  | zero => intro idx; simp [pollAux]
  | succ m ih =>
    intro idx
    simp only [pollAux]
    split
    · simp
    · split
      · simp
      · simpa using Nat.succ_le_succ (ih (idx + 1))

/-- pollAux_timeout: with no terminal snapshot inside the budget, the loop
throws the timeout error. -/
theorem pollAux_timeout (source : Nat → TaskStatus) :
    ∀ (n idx : Nat),
      (∀ i, i < n → (source (idx + i)).status ≠ TaskState.completed ∧
        (source (idx + i)).status ≠ TaskState.error) →
      (pollAux source idx n).2 = PollOutcome.timeout := by
  intro n
  induction n with
  | zero => intro idx _; simp [pollAux]
  | succ m ih =>
    intro idx h
    have h0 := h 0 (Nat.succ_pos m)
    simp only [Nat.add_zero] at h0
    simp only [pollAux]
    rw [if_neg h0.1, if_neg h0.2]
    refine ih (idx + 1) (fun i hi => ?_)
    have := h (i + 1) (by omega)
    have he : idx + (i + 1) = idx + 1 + i := by omega
    rwa [he] at this

/-- pollChatAux_none: on a source that never reaches a terminal status,
the ChatAssistant loop is still running after any number of polls. -/
theorem pollChatAux_none (source : Nat → TaskStatus)
    (h : ∀ i, (source i).status ≠ TaskState.completed ∧
      (source i).status ≠ TaskState.error) :
    ∀ (n idx : Nat), pollChatAux source idx n = none := by
  intro n
  induction n with
  | zero => intro idx; simp [pollChatAux]
  | succ m ih =>
    intro idx
    simp only [pollChatAux]
    rw [if_neg (h idx).1, if_neg (h idx).2, ih (idx + 1)]

/-- pollAux_observed: the i-th snapshot handed to `onProgress` is the i-th
snapshot of the source, verbatim. -/
theorem pollAux_observed (source : Nat → TaskStatus) :
    ∀ (n idx i : Nat) (s : TaskStatus),
      (pollAux source idx n).1.get? i = some s → s = source (idx + i) := by
  intro n
  induction n with
  | zero => intro idx i s h; simp [pollAux] at h
  | succ m ih =>
    intro idx i s h
    simp only [pollAux] at h
    by_cases hc : (source idx).status = TaskState.completed
    · rw [if_pos hc] at h
      cases i with
      | zero => simp at h; simp [← h]
      | succ j => simp at h
    · rw [if_neg hc] at h
      by_cases he : (source idx).status = TaskState.error
      · rw [if_pos he] at h
        cases i with
        | zero => simp at h; simp [← h]
        | succ j => simp at h
      · rw [if_neg he] at h
        cases i with
        | zero =>
          simp at h
          simp [← h]
        | succ j =>
          have := ih (idx + 1) j s (by simpa using h)
          rwa [show idx + 1 + j = idx + (j + 1) by omega] at this

/-- pollAux_first_completed: if the first terminal snapshot is a
`completed` one at relative index `k` inside the budget, the loop observes
exactly the first `k + 1` snapshots and returns the results of poll
`idx + k`. -/
theorem pollAux_first_completed (source : Nat → TaskStatus) :
    ∀ (k idx m : Nat), k < m →
      (∀ i, i < k → (source (idx + i)).status ≠ TaskState.completed ∧
        (source (idx + i)).status ≠ TaskState.error) →
      (source (idx + k)).status = TaskState.completed →
      pollAux source idx m =
        ((List.range (k + 1)).map (fun i => source (idx + i)),
          PollOutcome.success (idx + k)) := by
  intro k
  induction k with
  | zero =>
    intro idx m hm h hc
    cases m with
    | zero => omega
    | succ m' =>
      simp only [Nat.add_zero] at hc
      simp only [pollAux]
      rw [if_pos hc]
      simp [List.range_succ]
  | succ k ih =>
    intro idx m hm h hc
    cases m with
    | zero => omega
    | succ m' =>
      have h0 := h 0 (Nat.succ_pos k)
      simp only [Nat.add_zero] at h0
      simp only [pollAux]
      rw [if_neg h0.1, if_neg h0.2]
      have hshift : ∀ i, i < k →
          (source (idx + 1 + i)).status ≠ TaskState.completed ∧
          (source (idx + 1 + i)).status ≠ TaskState.error := by
        intro i hi
        have := h (i + 1) (by omega)
        rwa [show idx + (i + 1) = idx + 1 + i by omega] at this
      have hc' : (source (idx + 1 + k)).status = TaskState.completed := by
        rwa [show idx + (k + 1) = idx + 1 + k by omega] at hc
      rw [ih (idx + 1) m' (by omega) hshift hc']
      rw [show idx + 1 + k = idx + (k + 1) from by omega]
      have hlist : source idx :: (List.range (k + 1)).map (fun i => source (idx + 1 + i)) =
          (List.range (k + 1 + 1)).map (fun i => source (idx + i)) := by
        conv_rhs => rw [List.range_succ_eq_map]
        rw [List.map_cons, List.map_map]
        congr 1
        refine List.map_congr_left (fun a _ => ?_)
        show source (idx + 1 + a) = source (idx + (a + 1))
        exact congrArg source (by omega)
      exact Prod.ext hlist rfl

/-- pollAux_const: a constant non-terminal source makes the loop emit one
copy of the snapshot per attempt and then time out. -/
theorem pollAux_const (a : TaskStatus)
    (h1 : a.status ≠ TaskState.completed) (h2 : a.status ≠ TaskState.error) :
    ∀ (m idx : Nat),
      pollAux (fun _ => a) idx m = (List.replicate m a, PollOutcome.timeout) := by
  intro m
  induction m with
  | zero => intro idx; simp [pollAux]
  | succ m' ih =>
    intro idx
    simp only [pollAux]
    rw [if_neg h1, if_neg h2, ih (idx + 1)]
    simp [List.replicate_succ]

/-- pollAux_success_last: when the loop returns results for poll `k`, the
last snapshot handed to `onProgress` is the `completed` snapshot of poll
`k` itself. -/
theorem pollAux_success_last (source : Nat → TaskStatus) :
    ∀ (n idx k : Nat), (pollAux source idx n).2 = PollOutcome.success k →
      (pollAux source idx n).1.getLast? = some (source k) ∧
      (source k).status = TaskState.completed := by
  intro n
  induction n with
  | zero => intro idx k h; simp [pollAux] at h
  | succ m ih =>
    intro idx k h
    simp only [pollAux] at h ⊢
    by_cases hc : (source idx).status = TaskState.completed
    · rw [if_pos hc] at h ⊢
      simp at h
      simp [← h, hc]
    · rw [if_neg hc] at h ⊢
      by_cases he : (source idx).status = TaskState.error
      · rw [if_pos he] at h; simp at h
      · rw [if_neg he] at h ⊢
        simp only at h
        obtain ⟨hl, hs⟩ := ih (idx + 1) k h
        refine ⟨?_, hs⟩
        cases hrest : (pollAux source (idx + 1) m).1 with
        | nil => rw [hrest] at hl; simp at hl
        | cons b t =>
          rw [hrest] at hl
          rw [List.getLast?_cons_cons]
          exact hl

/-- pollAux_jobError_last: when the loop throws the job error, the last
snapshot handed to `onProgress` is the `error` snapshot whose `message`
field is the thrown message. -/
theorem pollAux_jobError_last (source : Nat → TaskStatus) :
    ∀ (n idx : Nat) (msg : String),
      (pollAux source idx n).2 = PollOutcome.jobError msg →
      ∃ st, (pollAux source idx n).1.getLast? = some st ∧
        st.status = TaskState.error ∧ st.message = msg := by
  intro n
  induction n with
  | zero => intro idx msg h; simp [pollAux] at h
  | succ m ih =>
    intro idx msg h
    simp only [pollAux] at h ⊢
    by_cases hc : (source idx).status = TaskState.completed
    · rw [if_pos hc] at h; simp at h
    · rw [if_neg hc] at h ⊢
      by_cases he : (source idx).status = TaskState.error
      · rw [if_pos he] at h ⊢
        simp at h
        exact ⟨source idx, by simp, he, h⟩
      · rw [if_neg he] at h ⊢
        simp only at h
        obtain ⟨st, hl, hs, hm⟩ := ih (idx + 1) msg h
        refine ⟨st, ?_, hs, hm⟩
        cases hrest : (pollAux source (idx + 1) m).1 with
        | nil => rw [hrest] at hl; simp at hl
        | cons b t =>
          rw [hrest] at hl
          rw [List.getLast?_cons_cons]
          exact hl

/-- pollChatAux_success_last: when the ChatAssistant loop returns a
completed status, that status is the last snapshot handed to `onUpdate`
and it reports `'completed'`. -/
theorem pollChatAux_success_last (source : Nat → TaskStatus) :
    ∀ (n idx : Nat) (em : List TaskStatus) (st : TaskStatus),
      pollChatAux source idx n = some (em, ChatPollOutcome.success st) →
      em.getLast? = some st ∧ st.status = TaskState.completed := by
  intro n
  induction n with
  | zero => intro idx em st h; simp [pollChatAux] at h
  | succ m ih =>
    intro idx em st h
    simp only [pollChatAux] at h
    by_cases hc : (source idx).status = TaskState.completed
    · rw [if_pos hc] at h
      simp at h
      obtain ⟨h1, h2⟩ := h
      subst h1
      subst h2
      simp [hc]
    · rw [if_neg hc] at h
      by_cases he : (source idx).status = TaskState.error
      · rw [if_pos he] at h
        simp at h
      · rw [if_neg he] at h
        cases hrec : pollChatAux source (idx + 1) m with
        | none => rw [hrec] at h; simp at h
        | some r =>
          rw [hrec] at h
          simp at h
          obtain ⟨h1, h2⟩ := h
          obtain ⟨r1, r2⟩ := r
          simp at h1 h2
          obtain ⟨hl, hs⟩ := ih (idx + 1) r1 st (by rw [hrec, h2])
          subst h1
          refine ⟨?_, hs⟩
          cases r1 with
          | nil => simp at hl
          | cons b t =>
            rw [List.getLast?_cons_cons]
            exact hl

/-- pollChatAux_jobError_last: when the ChatAssistant loop throws the job
error, the last snapshot handed to `onUpdate` reports `'error'` and
carries the thrown message. -/
theorem pollChatAux_jobError_last (source : Nat → TaskStatus) :
    ∀ (n idx : Nat) (em : List TaskStatus) (msg : String),
      pollChatAux source idx n = some (em, ChatPollOutcome.jobError msg) →
      ∃ st, em.getLast? = some st ∧ st.status = TaskState.error ∧
        st.message = msg := by
  intro n
  induction n with
  | zero => intro idx em msg h; simp [pollChatAux] at h
  | succ m ih =>
    intro idx em msg h
    simp only [pollChatAux] at h
    by_cases hc : (source idx).status = TaskState.completed
    · rw [if_pos hc] at h
      simp at h
    · rw [if_neg hc] at h
      by_cases he : (source idx).status = TaskState.error
      · rw [if_pos he] at h
        simp at h
        obtain ⟨h1, h2⟩ := h
        subst h1
        exact ⟨source idx, by simp, he, h2⟩
      · rw [if_neg he] at h
        cases hrec : pollChatAux source (idx + 1) m with
        | none => rw [hrec] at h; simp at h
        | some r =>
          rw [hrec] at h
          simp at h
          obtain ⟨h1, h2⟩ := h
          obtain ⟨r1, r2⟩ := r
          simp at h1 h2
          obtain ⟨st, hl, hs, hm⟩ := ih (idx + 1) r1 msg (by rw [hrec, h2])
          subst h1
          refine ⟨st, ?_, hs, hm⟩
          cases r1 with
          | nil => simp at hl
          | cons b t =>
            rw [List.getLast?_cons_cons]
            exact hl

/-! ## General lemmas about the extractor -/

/-- processLine_noop: a line with no section keyword, no `'|'` and no
sales-regex match leaves the parse state untouched. -/
theorem processLine_noop (st : ParseState) (line : String)
    (h1 : strIncludes (jsTrim line) ("销售额") = false)
    (h2 : strIncludes (jsTrim line) ("收入") = false)
    (h3 : strIncludes (jsTrim line) ("增长率") = false)
    (h4 : strIncludes (jsTrim line) ("增长") = false)
    (h5 : strIncludes (jsTrim line) ("产品") = false)
    (h6 : strIncludes (jsTrim line) ("分类") = false)
    (h7 : strContainsChar (jsTrim line) '|' = false)
    (h8 : salesMatch (jsTrim line) = none) :
    processLine st line = st := by
  cases st with
  | mk cur sa gr ca =>
    simp [processLine, detectSection, h1, h2, h3, h4, h5, h6, h7, h8]

/-- foldl_processLine_noop: a whole input of such lines leaves any parse
state untouched. -/
theorem foldl_processLine_noop :
    ∀ (ls : List String) (st : ParseState),
      (∀ l ∈ ls,
        strIncludes (jsTrim l) ("销售额") = false ∧
        strIncludes (jsTrim l) ("收入") = false ∧
        strIncludes (jsTrim l) ("增长率") = false ∧
        strIncludes (jsTrim l) ("增长") = false ∧
        strIncludes (jsTrim l) ("产品") = false ∧
        strIncludes (jsTrim l) ("分类") = false ∧
        strContainsChar (jsTrim l) '|' = false ∧
        salesMatch (jsTrim l) = none) →
      ls.foldl processLine st = st := by
  intro ls
  induction ls with
  | nil => intro st _; rfl
  | cons l ls ih =>
    intro st h
    obtain ⟨a1, a2, a3, a4, a5, a6, a7, a8⟩ := h l (by simp)
    rw [List.foldl_cons, processLine_noop st l a1 a2 a3 a4 a5 a6 a7 a8]
    exact ih st (fun x hx => h x (by simp [hx]))

/-- parseTableRow_sales: in the `'sales'` section a row with at least
three fields whose first field mentions `月` contributes one sales point
per parsable remaining field, keyed by field 0; unparsable fields are
skipped. -/
theorem parseTableRow_sales (t : String) (st : ParseState)
    (h3 : 3 ≤ (splitRow t).length)
    (hm : strIncludes ((splitRow t).headD ("")) ("月") = true) :
    parseTableRow ("sales") t st =
      { st with sales := st.sales ++
          (List.map (fun v => (⟨(splitRow t).headD (""), v⟩ : SalesPoint))
            (List.filterMap (fun p => jsParseFloat (keepDigitsDots p))
              ((splitRow t).drop 1))) } := by
  have hm' : strIncludes ((splitRow t).head?.getD ("")) ("月") = true := by
    simpa using hm
  simp [parseTableRow, h3, hm']

/-- parseTableRow_sales_no_month: in the `'sales'` section a row whose
first field does not mention `月` contributes nothing. -/
theorem parseTableRow_sales_no_month (t : String) (st : ParseState)
    (hm : strIncludes ((splitRow t).headD ("")) ("月") = false) :
    parseTableRow ("sales") t st = st := by
  have hm' : strIncludes ((splitRow t).head?.getD ("")) ("月") = false := by
    simpa using hm
  by_cases h3 : 3 ≤ (splitRow t).length
  · simp [parseTableRow, h3, hm']
  · simp [parseTableRow, h3]

/-- parseTableRow_categories: in the `'categories'` section only field 1
is read as a value; every further field of the row is ignored. -/
theorem parseTableRow_categories (t : String) (st : ParseState)
    (h3 : 3 ≤ (splitRow t).length) :
    parseTableRow ("categories") t st =
      (match jsParseFloat (keepDigitsDots ((splitRow t).getD 1 (""))) with
        | some v => { st with categories := st.categories ++ [⟨(splitRow t).headD (""), v⟩] }
        | none => st) := by
  have h2 : 2 ≤ (splitRow t).length := by omega
  simp [parseTableRow, h3, h2]

/-- stripCommasDots_parse_integral: the label-path cleanup removes every
decimal point, so any value it yields is an integer. -/
theorem stripCommasDots_parse_integral (s : String) (v : ℚ)
    (h : jsParseFloat (stripCommasDots s) = some v) : v.den = 1 := by
  have hdot : ('.' ∈ (stripCommasDots s).data) → False := by
    intro hmem
    simp only [stripCommasDots] at hmem
    have := List.of_mem_filter hmem
    simp at this
  simp only [jsParseFloat] at h
  cases hr : (stripCommasDots s).data.dropWhile Char.isDigit with
  | nil =>
    rw [hr] at h
    by_cases hi : ((stripCommasDots s).data.takeWhile Char.isDigit).isEmpty
    · simp [hi] at h
    · simp [hi] at h
      rw [← h]
      exact Rat.den_natCast _
  | cons c r2 =>
    have hc : c ∈ (stripCommasDots s).data :=
      (List.dropWhile_sublist Char.isDigit).subset (by rw [hr]; simp)
    have hcne : ¬c = '.' := fun he => hdot (he ▸ hc)
    rw [hr] at h
    split at h
    · rename_i r2' heq
      exact absurd (List.cons.injEq .. ▸ congrArg id heq) (by simp [hcne])
    · by_cases hi : ((stripCommasDots s).data.takeWhile Char.isDigit).isEmpty
      · simp [hi] at h
      · simp [hi] at h
        rw [← h]
        exact Rat.den_natCast _

/-! ## Claim theorems -/

/-- C1 (counterexample): the ChatAssistant's own `pollTaskUntilComplete`
violates the 150-poll budget — on a source that never reaches a terminal
status it is still polling after 151 polls, with no `TimeoutError`. -/
theorem chat_polling_unbounded :
    pollTaskUntilCompleteChat constAnalyzingSource 151 = none := by decide

/-- C1 (amended): the advanced_api.ts `pollTaskUntilComplete` makes at
most 150 polls and, when no snapshot inside that budget is terminal, it
fails with the timeout error; the ChatAssistant-local
`pollTaskUntilComplete`, however, has no attempt cap — on a source that
never reaches a terminal status it is still polling after any number of
polls. -/
theorem polling_attempt_budget :
    (∀ source : Nat → TaskStatus,
      (pollTaskUntilComplete source 150).1.length ≤ 150 ∧
      ((∀ i, i < 150 → (source i).status ≠ TaskState.completed ∧
          (source i).status ≠ TaskState.error) →
        (pollTaskUntilComplete source 150).2 = PollOutcome.timeout)) ∧
    (∀ source : Nat → TaskStatus,
      (∀ i, (source i).status ≠ TaskState.completed ∧
        (source i).status ≠ TaskState.error) →
      ∀ fuel, pollTaskUntilCompleteChat source fuel = none) := by
  constructor
  · intro source
    refine ⟨pollAux_length_le source 150 0, fun h => ?_⟩
    exact pollAux_timeout source 150 0 (fun i hi => by simpa using h i hi)
  · intro source h fuel
    exact pollChatAux_none source h fuel 0

/-- polling_attempt_budget_witness instantiates the budget theorem on the
never-terminal source. -/
theorem polling_attempt_budget_witness :
    (pollTaskUntilComplete constAnalyzingSource 150).1.length ≤ 150 ∧
    (pollTaskUntilComplete constAnalyzingSource 150).2 = PollOutcome.timeout ∧
    pollTaskUntilCompleteChat constAnalyzingSource 200 = none :=
  ⟨(polling_attempt_budget.1 constAnalyzingSource).1,
   (polling_attempt_budget.1 constAnalyzingSource).2 (fun i _ =>
     (by decide : analyzingSnap.status ≠ TaskState.completed ∧
       analyzingSnap.status ≠ TaskState.error)),
   polling_attempt_budget.2 constAnalyzingSource (fun i =>
     (by decide : analyzingSnap.status ≠ TaskState.completed ∧
       analyzingSnap.status ≠ TaskState.error)) 200⟩

/-- C2 (counterexample): polling 50, then 30, then completed makes the
externally observable progress sequence [50, 30, 100] — the stale higher
value 50 is not retained, so observed progress is not non-decreasing. -/
theorem observed_progress_not_monotone :
    ((pollTaskUntilComplete c2source 150).1.map (fun s => s.progress)) =
      [50, 30, 100] ∧
    ¬ ((50 : Int) ≤ 30) :=
  ⟨by decide, by decide⟩

/-- C2 (amended): every observation delivered to `onProgress` (and hence
to the `setTaskStatus` observable state) is the polled snapshot verbatim:
a snapshot reporting lower progress than previously observed replaces the
higher value, while its message and current_step are surfaced with it —
no monotonic retention takes place. -/
theorem observed_snapshot_verbatim (source : Nat → TaskStatus) (m i : Nat)
    (s : TaskStatus)
    (h : (pollTaskUntilComplete source m).1.get? i = some s) :
    s = source i := by
  have := pollAux_observed source m 0 i s h
  simpa using this

/-- observed_snapshot_verbatim_witness instantiates the theorem at the
second (lower-progress) observation of the c2 run. -/
theorem observed_snapshot_verbatim_witness :
    (pollTaskUntilComplete c2source 150).1.get? 1 = some c2snap1 ∧
    c2snap1 = c2source 1 :=
  ⟨by decide, observed_snapshot_verbatim c2source 150 1 c2snap1 (by decide)⟩

/-- C3 (counterexample): when the 3rd poll reports completed and the 4th
(stale) snapshot is non-terminal, the run simply returns the results
after the 3rd poll; the stale snapshot is never observed and no
ObservationError is reported — the loop's outcome type has no such error
at all. -/
theorem stale_after_terminal_no_observation_error :
    pollTaskUntilComplete c3source 150 =
      ([c3snap0, c3snap1, c3snap2], PollOutcome.success 2) ∧
    (c3source 3).status = TaskState.analyzing :=
  ⟨by decide, by decide⟩

/-- C3 (amended): the first completed snapshot ends the run immediately:
exactly the first k+1 snapshots are observed and the results of poll k
are returned, so a later non-terminal snapshot for the same task is never
polled nor applied; no ObservationError exists or is raised. -/
theorem terminal_completed_stops_run (source : Nat → TaskStatus)
    (m k : Nat) (hk : k < m)
    (hpre : ∀ i, i < k → (source i).status ≠ TaskState.completed ∧
      (source i).status ≠ TaskState.error)
    (hc : (source k).status = TaskState.completed) :
    pollTaskUntilComplete source m =
      ((List.range (k + 1)).map source, PollOutcome.success k) := by
  have := pollAux_first_completed source k 0 m hk
    (fun i hi => by simpa using hpre i hi) (by simpa using hc)
  simpa using this

/-- terminal_completed_stops_run_witness instantiates the theorem on the
c3 run, whose 4th snapshot is stale. -/
theorem terminal_completed_stops_run_witness :
    (c3source 2).status = TaskState.completed ∧
    pollTaskUntilComplete c3source 150 =
      ((List.range 3).map c3source, PollOutcome.success 2) :=
  ⟨by decide, terminal_completed_stops_run c3source 150 2 (by omega)
    (fun i hi => by interval_cases i <;> exact (by decide)) (by decide)⟩

/-- C4 (counterexample): two consecutive identical snapshots are both
handed to `onProgress` — the duplicate is re-emitted, not suppressed. -/
theorem duplicate_snapshot_reemitted :
    pollTaskUntilComplete c4source 150 =
      ([c4snap, c4snap, c4done], PollOutcome.success 2) ∧
    (pollTaskUntilComplete c4source 150).1.get? 0 =
      (pollTaskUntilComplete c4source 150).1.get? 1 :=
  ⟨by decide, by decide⟩

/-- C4 (amended): `onProgress` is invoked exactly once per poll with the
polled snapshot and without any deduplication: a constant non-terminal
source produces one emission per attempt — every consecutive duplicate is
re-emitted — until the budget is spent. -/
theorem once_per_poll_no_dedup (a : TaskStatus) (m : Nat)
    (h1 : a.status ≠ TaskState.completed) (h2 : a.status ≠ TaskState.error) :
    pollTaskUntilComplete (fun _ => a) m =
      (List.replicate m a, PollOutcome.timeout) :=
  pollAux_const a h1 h2 m 0

/-- once_per_poll_no_dedup_witness instantiates the theorem on the
constant analyzing snapshot with the default budget. -/
theorem once_per_poll_no_dedup_witness :
    analyzingSnap.status ≠ TaskState.completed ∧
    pollTaskUntilComplete (fun _ => analyzingSnap) 150 =
      (List.replicate 150 analyzingSnap, PollOutcome.timeout) :=
  ⟨by decide, once_per_poll_no_dedup analyzingSnap 150 (by decide) (by decide)⟩

/-- C10: the terminal snapshot itself is delivered to the observer before
the run ends — in both polling loops, when completed is polled the
observer receives that snapshot before the results are fetched/returned,
and when error is polled the observer receives that snapshot before the
error carrying the server message is thrown. -/
theorem terminal_snapshot_delivered (source : Nat → TaskStatus)
    (m fuel : Nat) :
    (∀ k, (pollTaskUntilComplete source m).2 = PollOutcome.success k →
      (pollTaskUntilComplete source m).1.getLast? = some (source k) ∧
      (source k).status = TaskState.completed) ∧
    (∀ msg, (pollTaskUntilComplete source m).2 = PollOutcome.jobError msg →
      ∃ st, (pollTaskUntilComplete source m).1.getLast? = some st ∧
        st.status = TaskState.error ∧ st.message = msg) ∧
    (∀ em st, pollTaskUntilCompleteChat source fuel =
        some (em, ChatPollOutcome.success st) →
      em.getLast? = some st ∧ st.status = TaskState.completed) ∧
    (∀ em msg, pollTaskUntilCompleteChat source fuel =
        some (em, ChatPollOutcome.jobError msg) →
      ∃ st, em.getLast? = some st ∧ st.status = TaskState.error ∧
        st.message = msg) :=
  ⟨fun k h => pollAux_success_last source m 0 k h,
   fun msg h => pollAux_jobError_last source m 0 msg h,
   fun em st h => pollChatAux_success_last source fuel 0 em st h,
   fun em msg h => pollChatAux_jobError_last source fuel 0 em msg h⟩

/-- terminal_snapshot_delivered_witness instantiates the theorem on one
successful and one failing run, for both loops. -/
theorem terminal_snapshot_delivered_witness :
    ((pollTaskUntilComplete c10okSource 150).1.getLast? = some (c10okSource 2) ∧
      (c10okSource 2).status = TaskState.completed) ∧
    (∃ st, (pollTaskUntilComplete c10errSource 150).1.getLast? = some st ∧
      st.status = TaskState.error ∧ st.message = ("任务处理失败")) ∧
    (([c10run0, c10run1, c10done]).getLast? = some c10done ∧
      c10done.status = TaskState.completed) ∧
    (∃ st, ([c10run0, c10fail]).getLast? = some st ∧
      st.status = TaskState.error ∧ st.message = ("任务处理失败")) :=
  ⟨(terminal_snapshot_delivered c10okSource 150 5).1 2 (by decide),
   (terminal_snapshot_delivered c10errSource 150 5).2.1 ("任务处理失败") (by decide),
   (terminal_snapshot_delivered c10okSource 150 5).2.2.1
     ([c10run0, c10run1, c10done]) c10done (by decide),
   (terminal_snapshot_delivered c10errSource 150 5).2.2.2
     ([c10run0, c10fail]) ("任务处理失败") (by decide)⟩

/-- C5: an input with no recognizable structure — no section keyword on
any line, no delimiter character, and no line matching the
label-colon-number-unit pattern — extracts to three empty datasets; the
extractor itself is a total function (the source's catch-all is
unreachable), so it returns normally on every input. -/
theorem extractor_unrecognized_input_empty (markdown : String)
    (h : ∀ l ∈ jsSplit '\n' markdown,
      strIncludes (jsTrim l) ("销售额") = false ∧
      strIncludes (jsTrim l) ("收入") = false ∧
      strIncludes (jsTrim l) ("增长率") = false ∧
      strIncludes (jsTrim l) ("增长") = false ∧
      strIncludes (jsTrim l) ("产品") = false ∧
      strIncludes (jsTrim l) ("分类") = false ∧
      strContainsChar (jsTrim l) '|' = false ∧
      salesMatch (jsTrim l) = none) :
    parseOCRData markdown = ⟨[], [], []⟩ := by
  simp only [parseOCRData]
  rw [foldl_processLine_noop (jsSplit '\n' markdown) ⟨"", [], [], []⟩ h]

/-- extractor_unrecognized_input_empty_witness instantiates the theorem
on a two-line input with no recognizable structure. -/
theorem extractor_unrecognized_input_empty_witness :
    (∀ l ∈ jsSplit '\n' ("质量报告\nhello world"),
      strIncludes (jsTrim l) ("销售额") = false ∧
      strIncludes (jsTrim l) ("收入") = false ∧
      strIncludes (jsTrim l) ("增长率") = false ∧
      strIncludes (jsTrim l) ("增长") = false ∧
      strIncludes (jsTrim l) ("产品") = false ∧
      strIncludes (jsTrim l) ("分类") = false ∧
      strContainsChar (jsTrim l) '|' = false ∧
      salesMatch (jsTrim l) = none) ∧
    parseOCRData ("质量报告\nhello world") = ⟨[], [], []⟩ :=
  ⟨by decide, extractor_unrecognized_input_empty ("质量报告\nhello world") (by decide)⟩

/-- C6 (counterexample): in the categories section a three-field row
contributes only the value of field 1 — field 2 is ignored, not treated
as a candidate value; and in the sales section a three-field row whose
first field lacks `月` contributes nothing at all. -/
theorem table_row_positional_counterexample :
    (parseOCRData ("产品\n| A | 10 | 20 |")).categories = [⟨"A", 10⟩] ∧
    (parseOCRData ("销售额\n| Q1 | 4200 | 4300 |")).sales = [] :=
  ⟨by decide, by decide⟩

/-- C6 (amended): in the sales (and growth) sections a delimiter row with
3+ fields is parsed positionally only when field 0 contains `月`: field 0
is the category key, every remaining field is a candidate value with
non-digit/non-dot characters stripped, and a field that fails to parse is
skipped without dropping the rest; a sales row without `月` in field 0 is
skipped entirely; in the categories section only field 1 is parsed as the
value. -/
theorem table_row_positional_amended (t : String) (st : ParseState)
    (h3 : 3 ≤ (splitRow t).length) :
    (strIncludes ((splitRow t).headD ("")) ("月") = true →
      parseTableRow ("sales") t st =
        { st with sales := st.sales ++
            (List.map (fun v => (⟨(splitRow t).headD (""), v⟩ : SalesPoint))
              (List.filterMap (fun p => jsParseFloat (keepDigitsDots p))
                ((splitRow t).drop 1))) }) ∧
    (strIncludes ((splitRow t).headD ("")) ("月") = false →
      parseTableRow ("sales") t st = st) ∧
    (parseTableRow ("categories") t st =
      (match jsParseFloat (keepDigitsDots ((splitRow t).getD 1 (""))) with
        | some v => { st with categories :=
            st.categories ++ [⟨(splitRow t).headD (""), v⟩] }
        | none => st)) :=
  ⟨fun hm => parseTableRow_sales t st h3 hm,
   fun hm => parseTableRow_sales_no_month t st hm,
   parseTableRow_categories t st h3⟩

/-- table_row_positional_amended_witness instantiates the sales branch on
a row with an unparsable middle field, which is skipped while both
numeric fields survive. -/
theorem table_row_positional_amended_witness :
    3 ≤ (splitRow ("| 1月 | 4200 | x | 4300 |")).length ∧
    parseTableRow ("sales") ("| 1月 | 4200 | x | 4300 |") ⟨"sales", [], [], []⟩ =
      ⟨"sales", [⟨"1月", 4200⟩, ⟨"1月", 4300⟩], [], []⟩ :=
  ⟨by decide,
   ((table_row_positional_amended ("| 1月 | 4200 | x | 4300 |")
      ⟨"sales", [], [], []⟩ (by decide)).1 (by decide)).trans (by decide)⟩

/-- C7 (counterexample): the label-colon path strips the decimal point
from the captured number, so `1月: 4.5万元` extracts the value 45 — ten
times the written 4.5; the decimal fraction is not preserved. -/
theorem decimal_fraction_not_preserved :
    (parseOCRData ("1月: 4.5万元")).sales = [⟨"1月", 45⟩] ∧
    (4.5 : ℚ) ≠ (45 : ℚ) :=
  ⟨by decide, by norm_num⟩

/-- C7 (amended): in the label-colon path both commas and periods are
stripped before `parseFloat`, so every value that path produces is an
integer (a decimal fraction is concatenated into the integer digits
rather than preserved); a capture whose cleaned text fails to parse
yields no point.  The table path strips only non-digit/non-dot
characters, so there the decimal value survives. -/
theorem label_path_values_integral (s : String) (v : ℚ)
    (h : jsParseFloat (stripCommasDots s) = some v) : v.den = 1 :=
  stripCommasDots_parse_integral s v h

/-- label_path_values_integral_witness instantiates the theorem on the
capture `4.5`, which parses to the integer 45. -/
theorem label_path_values_integral_witness :
    jsParseFloat (stripCommasDots ("4.5")) = some ((45 : ℚ)) ∧
    ((45 : ℚ)).den = 1 :=
  ⟨by decide, label_path_values_integral ("4.5") (45 : ℚ) (by decide)⟩

/-- C8: the two-line input `1月: 4200万元` / `2月: 5800万元` extracts the
sales dataset [(1月, 4200), (2月, 5800)] in order. -/
theorem label_lines_example_extraction :
    (parseOCRData ("1月: 4200万元\n2月: 5800万元")).sales =
      [⟨"1月", 4200⟩, ⟨"2月", 5800⟩] := by decide

/-- C9: a `销售额` heading followed by the table row
`| 1月 | 4200 | 4300 |` extracts exactly two sales points for 1月, one
per numeric column, both retained in encounter order. -/
theorem sales_table_row_two_points :
    (parseOCRData ("销售额\n| 1月 | 4200 | 4300 |")).sales =
      [⟨"1月", 4200⟩, ⟨"1月", 4300⟩] := by decide

end DocAnalysis
